import Mathlib

/-!
# HiLoForge — verification of the client-side job pipeline surface

Shallow embedding of the two HiLoForge clients:

* the vanilla JS client (`src/unnamed/part_000`): status polling with
  `setInterval`, download-link affordance, submit handler;
* the React client (`App.tsx`, embedded in `src/README.md`): `pollJob`/`tick`
  with `setTimeout` chaining, memoised URL builders, local preview object-URL
  lifecycle, submit gating by the `polling` flag.

The FastAPI backend (`api/`) and the worker are not part of `src/`; where a
claim depends on them (the `model` endpoint's dual-identifier resolution, the
Submission Service validation) the behaviour is modelled from the spec and the
definition's doc comment says so.

JavaScript strings that may be `null`/`undefined` are embedded as
`Option String`; JS truthiness of such a value (`x || y`, `if (!x)`) is
`truthyOpt`.  `setTimeout`/`setInterval` scheduling is embedded as explicit
timelines over `Nat` time (milliseconds).  Browser object URLs are embedded as
`Nat` identifiers with a ghost list of created-but-not-revoked URLs.
-/

namespace HiLoForge

/-- JS truthiness for a nullable string: `null`, `undefined` and `""` are
falsy.  `truthyOpt x = some s` exactly when the JS value is a non-empty
string `s`. -/
def truthyOpt : Option String → Option String
  | some s => if s = "" then none else some s
  | none => none

/-- `data.field || "—"` on a nullable string field. -/
def jsOrDash (o : Option String) : String :=
  match truthyOpt o with
  | some s => s
  | none => "—"

/-- `data.field || ""` on a nullable string field. -/
def jsOrEmpty (o : Option String) : String :=
  match truthyOpt o with
  | some s => s
  | none => ""

/-- The `JobStatus` snapshot returned by `GET /jobs/{job_id}`
(`App.tsx` lines 156–164 of `src/README.md`). -/
structure JobStatus where
  job_id : String := ""
  status : String
  created_at : Option String := none
  ended_at : Option String := none
  error : Option String := none
  output_id : Option String := none
  deriving DecidableEq, Repr

/-- A terminal server-side status: `finished` or `failed`
(the stop condition of both pollers). -/
def isTerminalStatus (st : String) : Bool :=
  st == "finished" || st == "failed"

/-- Result of one `fetchStatus` call as observed by a poller tick:
either a parsed snapshot or a thrown transport/HTTP error message. -/
inductive PollResult where
  | ok (data : JobStatus)
  | err (msg : String)
  deriving DecidableEq, Repr

/-! ## Vanilla JS client (`src/unnamed/part_000`) -/

/-- The DOM-backed state that `src/unnamed/part_000` mutates:
status pill text and tone, timestamps, error box, and the download link
(`setDownload url` enabled vs `setDownload null` disabled, embedded as
`Option String`). -/
structure VanillaUi where
  statusText : String := "Idle"
  statusTone : String := "default"
  queuedAt : String := "—"
  endedAt : String := "—"
  errorText : String := ""
  downloadHref : Option String := none
  deriving DecidableEq, Repr

/-- One `update` closure call of `pollJob` in `src/unnamed/part_000`
(lines 55–76).  Returns the new DOM state and whether this call executed
`clearInterval(pollTimer)` (terminal status observed, or the `fetch`
threw). -/
def vanillaUpdate (jobId : String) (s : VanillaUi) (r : PollResult) :
    VanillaUi × Bool :=
  match r with
  | .ok data =>
    let s1 : VanillaUi :=
      { s with
        statusText := data.status, statusTone := "default",
        queuedAt := jsOrDash data.created_at,
        endedAt := jsOrDash data.ended_at,
        errorText := jsOrEmpty data.error }
    if data.status = "finished" then
      ({ s1 with downloadHref := some ("/jobs/" ++ jobId ++ "/download") }, true)
    else if data.status = "failed" then
      ({ s1 with downloadHref := none, statusText := "failed",
                 statusTone := "error" }, true)
    else (s1, false)
  | .err msg =>
    ({ s with statusText := "error", statusTone := "error",
              errorText := msg }, true)

/-- The interval phase of `pollJob`: `update` runs every 2000 ms until one
call clears the (now correctly assigned) `pollTimer`.  The argument list
supplies the result of each successive `fetchStatus`; the returned `Nat`
counts the `update` calls executed in this phase. -/
def vanillaIntervalRun (jobId : String) (s : VanillaUi) :
    List PollResult → VanillaUi × Nat
  | [] => (s, 0)
  | r :: rest =>
    let su := vanillaUpdate jobId s r
    if su.2 then (su.1, 1)
    else
      let done := vanillaIntervalRun jobId su.1 rest
      (done.1, done.2 + 1)

/-- `pollJob` of `src/unnamed/part_000` (lines 50–80): it first runs
`await update()` — at that point `pollTimer` is not yet assigned, so a
`clearInterval(pollTimer)` inside this first call has no effect — and THEN
executes `pollTimer = setInterval(update, 2000)` unconditionally.  The
first call's cleared-flag is therefore discarded.  Returns the final DOM
state and the total number of `update` calls executed. -/
def vanillaPollJob (jobId : String) (s : VanillaUi) :
    List PollResult → VanillaUi × Nat
  | [] => (s, 0)
  | r :: rest =>
    let first := vanillaUpdate jobId s r
    let tail := vanillaIntervalRun jobId first.1 rest
    (tail.1, tail.2 + 1)

/-- The submit-handler guard of `src/unnamed/part_000` (lines 87–91):
the upload is rejected (no `POST /jobs` sent) iff `fileInput.files` is
empty; the size of a selected file is not inspected. -/
def vanillaSubmitSendsPost (fileCount : Nat) (firstFileSize : Nat) : Bool :=
  decide (fileCount ≠ 0)

/-! ## Polling timelines

Both pollers poll `get_status`; their scheduling differs.  Time is in
milliseconds; `dur k` is the duration of the `k`-th status request. -/

/-- Start time of the `k`-th `update` call in the vanilla client when no
call has yet cleared the interval (every observed status non-terminal and
no transport error): the first call runs at once and
`setInterval(update, 2000)` fires the rest every 2000 ms regardless of
whether the previous async `update` has completed. -/
def vanillaStartTime (k : Nat) : Nat := 2000 * k

/-- Completion time of the `k`-th vanilla `update`'s status request. -/
def vanillaFinishTime (dur : Nat → Nat) (k : Nat) : Nat :=
  vanillaStartTime k + dur k

/-- Number of status requests of the first `n` vanilla polls that are in
flight at time `t` (started, not yet completed), in a loop whose observed
statuses stay non-terminal. -/
def vanillaInFlightAt (dur : Nat → Nat) (n t : Nat) : Nat :=
  (List.range n).countP
    (fun k => decide (vanillaStartTime k ≤ t ∧ t < vanillaFinishTime dur k))

/-- Start time of the `k`-th `tick` in the React client (`App.tsx`
lines 287–325): the first tick runs at once, and each next tick is
scheduled by `setTimeout(tick, 2000)` only after the previous tick's
request completed (the `await` finished without hitting a terminal
status). -/
def reactStartTime (dur : Nat → Nat) : Nat → Nat
  | 0 => 0
  | k + 1 => reactStartTime dur k + dur k + 2000

/-- Completion time of the `k`-th React tick's status request. -/
def reactFinishTime (dur : Nat → Nat) (k : Nat) : Nat :=
  reactStartTime dur k + dur k

/-! ## React client (`App.tsx`, embedded in `src/README.md`)

URL builders (lines 248–271) and the component state machine. -/

/-- ASCII lower-casing of one character (file names here are ASCII;
`toLowerCase` on them only affects `A`–`Z`). -/
def lowerChar (c : Char) : Char :=
  if 65 ≤ c.toNat ∧ c.toNat ≤ 90 then Char.ofNat (c.toNat + 32) else c

/-- `file.name.toLowerCase().split(".").pop() || ""`: the lower-cased part
after the last dot; the whole lower-cased name when there is no dot; `""`
when the name ends in a dot. -/
def extOf (name : String) : String :=
  String.mk (((name.toList.map lowerChar).reverse.takeWhile (fun c => c != '.')).reverse)

/-- `ext === "glb" || ext === "gltf"` — the extensions given a local
pre-upload 3D preview. -/
def isLocalPreviewExt (ext : String) : Bool :=
  ext == "glb" || ext == "gltf"

/-- `downloadUrl` memo (`App.tsx` lines 248–253): non-null exactly when
`rqJobId` is truthy and `status === "finished"`; built from the RQ job id,
never from the output id. -/
def downloadUrl (base : String) (rqJobId : Option String) (status : String) :
    Option String :=
  match truthyOpt rqJobId with
  | none => none
  | some rq =>
    if status = "finished" then some (base ++ "/jobs/" ++ rq ++ "/download")
    else none

/-- `compareJobId` (`App.tsx` lines 255–256):
`route.params.get("job") || route.params.get("output") || jobId`. -/
def compareJobIdOf (paramJob paramOutput jobId : Option String) :
    Option String :=
  match truthyOpt paramJob with
  | some v => some v
  | none =>
    match truthyOpt paramOutput with
    | some v => some v
    | none => jobId

/-- `compareBefore` (`App.tsx` lines 257–259). -/
def compareBeforeUrl (base : String) (paramJob paramOutput jobId : Option String) :
    Option String :=
  match truthyOpt (compareJobIdOf paramJob paramOutput jobId) with
  | some c => some (base ++ "/jobs/" ++ c ++ "/preview/before")
  | none => none

/-- `compareAfter` (`App.tsx` lines 260–262). -/
def compareAfterUrl (base : String) (paramJob paramOutput jobId : Option String) :
    Option String :=
  match truthyOpt (compareJobIdOf paramJob paramOutput jobId) with
  | some c => some (base ++ "/jobs/" ++ c ++ "/preview/after")
  | none => none

/-- `modelUrl` (`App.tsx` line 263): `jobId ? base + "/jobs/" + jobId + "/model" : null`. -/
def modelUrl (base : String) (jobId : Option String) : Option String :=
  match truthyOpt jobId with
  | some j => some (base ++ "/jobs/" ++ j ++ "/model")
  | none => none

/-- `compareModelUrl` (`App.tsx` lines 269–271). -/
def compareModelUrl (base : String) (paramJob paramOutput jobId : Option String) :
    Option String :=
  match truthyOpt (compareJobIdOf paramJob paramOutput jobId) with
  | some c => some (base ++ "/jobs/" ++ c ++ "/model")
  | none => none

/-- The `View Comparison` link target (`App.tsx` line 686):
the template literal prints a null `jobId` as the string `"null"`. -/
def compareLinkHref (jobId : Option String) : String :=
  "#/compare?job=" ++
    (match jobId with
     | some j => j
     | none => "null")

/-- Whether the status panel shows the `Download ZIP` and `View Comparison`
affordances (`App.tsx` lines 679–693): both render exactly when
`downloadUrl` is non-null, otherwise the panel shows `Not ready`. -/
def downloadAffordanceShown (base : String) (rqJobId : Option String)
    (status : String) : Bool :=
  (downloadUrl base rqJobId status).isSome

/-- The submit-handler guard of `App.tsx` (lines 334–341):
`formData.get("file")` embedded as `Option Nat` (the selected file's size
in bytes, `none` when absent).  `true` iff the handler goes on to send
`POST /jobs`; `!file || file.size === 0` is rejected before any request. -/
def reactSubmitSendsPost (file : Option Nat) : Bool :=
  match file with
  | none => false
  | some size => decide (size ≠ 0)

/-- Outcome of the submit attempt as seen by `onSubmit` after its guard:
the `POST /jobs` either fails (response not ok / network throw) or returns
`{job_id, output_id, status}`. -/
inductive SubmitOutcome where
  | clientRejected
  | postFailed (msg : String)
  | postOk (job_id : String) (output_id : Option String) (status : Option String)
  deriving DecidableEq, Repr

/-- An event consumed by the React component, in the order the browser
delivers them.  Poll events belong to the loop started by the last
successful submission; local preview object URLs created by
`URL.createObjectURL` are numbered. -/
inductive UiEvent where
  | selectFile (name : String)
  | selectNone
  | submit (outcome : SubmitOutcome)
  | pollOk (data : JobStatus)
  | pollErr (msg : String)
  | unmount
  deriving DecidableEq, Repr

/-- The React component state (`App.tsx` lines 226–236) plus ghost fields:
`liveUrls` — object URLs created and not yet revoked; `nextUrl` — the next
fresh object-URL id; `loops` — the number of polling loops currently in
flight. -/
structure UiState where
  jobId : Option String := none
  rqJobId : Option String := none
  status : String := "Idle"
  queuedAt : String := "—"
  endedAt : String := "—"
  error : String := ""
  polling : Bool := false
  selectedFile : String := "No file selected"
  fileInputKey : Nat := 0
  localModelUrl : Option Nat := none
  liveUrls : List Nat := []
  nextUrl : Nat := 0
  loops : Nat := 0
  deriving DecidableEq, Repr

/-- The initial component state. -/
def initUi : UiState := {}

/-- `clearLocalModelPreview` (`App.tsx` lines 238–245): revoke the current
object URL (if any) and null the state.  A later replacement of
`localModelUrl` additionally triggers the `useEffect` cleanup
(lines 279–285), which revokes the same, already revoked, URL again — a
no-op on the set of live URLs. -/
def clearLocalModelPreview (s : UiState) : UiState :=
  match s.localModelUrl with
  | some u => { s with localModelUrl := none, liveUrls := s.liveUrls.erase u }
  | none => s

/-- `URL.createObjectURL` on a newly selected file: a fresh object URL. -/
def createObjectUrl (s : UiState) : UiState :=
  { s with localModelUrl := some s.nextUrl,
           liveUrls := s.liveUrls ++ [s.nextUrl],
           nextUrl := s.nextUrl + 1 }

/-- One React component transition.

* `selectFile`/`selectNone`: the file input `onChange` handler
  (`App.tsx` lines 480–491) — store the name, clear the previous local
  preview, and create a fresh object URL only for `.glb`/`.gltf`.
* `submit`: `onSubmit` (lines 327–364) — a no-op while `polling` is true
  (the submit button is `disabled={polling}`, lines 613–619); otherwise
  resets error/timestamps, and on a successful `POST` stores
  `data.job_id || null` in `rqJobId`, `data.output_id || null` in `jobId`,
  `data.status || "queued"` in `status`, and starts the polling loop
  (`pollJob` sets `polling` to true, line 288).
* `pollOk`/`pollErr`: one `tick` of the loop (lines 291–322); ignored when
  no loop is in flight.
* `unmount`: the `useEffect` cleanup (lines 279–285) revokes the held
  object URL. -/
def stepUi (s : UiState) : UiEvent → UiState
  | .selectFile name =>
    let s1 := clearLocalModelPreview { s with selectedFile := name }
    if isLocalPreviewExt (extOf name) then createObjectUrl s1 else s1
  | .selectNone =>
    clearLocalModelPreview { s with selectedFile := "No file selected" }
  | .submit outcome =>
    if s.polling then s
    else
      let s1 := { s with error := "", status := "uploading",
                         queuedAt := "—", endedAt := "—" }
      match outcome with
      | .clientRejected =>
        { s1 with error := "Please choose a file before submitting.",
                  status := "Idle" }
      | .postFailed msg =>
        { s1 with status := "error", error := msg, polling := false }
      | .postOk jid oid st =>
        { s1 with rqJobId := truthyOpt (some jid),
                  jobId := truthyOpt oid,
                  status := (truthyOpt st).getD "queued",
                  polling := true, loops := s1.loops + 1 }
  | .pollOk data =>
    if s.polling then
      let s1 :=
        { s with
          status := data.status,
          queuedAt := jsOrDash data.created_at,
          endedAt := jsOrDash data.ended_at,
          error := jsOrEmpty data.error,
          jobId := match truthyOpt data.output_id with
                   | some o => some o
                   | none => s.jobId }
      if isTerminalStatus data.status then
        let s2 := clearLocalModelPreview
          { s1 with polling := false, loops := s1.loops - 1,
                    selectedFile := "No file selected" }
        { s2 with fileInputKey := s2.fileInputKey + 1 }
      else s1
    else s
  | .pollErr msg =>
    if s.polling then
      { s with error := msg, status := "error", polling := false,
               loops := s.loops - 1 }
    else s
  | .unmount => clearLocalModelPreview s

/-- Run the component from a state through a list of events. -/
def runUi (s : UiState) (evs : List UiEvent) : UiState :=
  evs.foldl stepUi s

/-! ## Backend pieces not present under `src/` -/

/-- Modelled from the spec: the Submission Service validation (`api/` is
not under `src/`).  §4.1: "Validates file extension against an allow-list
{glb, gltf, fbx, obj, zip}"; "Validates presence and non-zero size of the
uploaded content; rejects empty uploads" — a rejected upload creates no
Job Record, allocates no identifiers and adds no queue entry. -/
def submissionAccepts (ext : String) (size : Nat) : Bool :=
  (["glb", "gltf", "fbx", "obj", "zip"].contains ext) && decide (size ≠ 0)

/-- A stored Job Record, as the Retrieval Service reads it (spec §3):
status plus the pointer to the job's output. -/
structure JobRec where
  status : String
  output_id : Option String
  deriving DecidableEq, Repr

/-- Modelled from the spec: the `GET /jobs/{identifier}/model` resolution
(`api/` is not under `src/`).  §4.4 and §9: the identifier is first
interpreted as an `output_id` (direct directory lookup); only if that
misses is it resolved as a `job_id` via the Job Record and followed to its
`output_id`.  `outputs` maps `output_id` to the stored model bytes;
`jobs` maps `job_id` to its Job Record. -/
def resolveModel (outputs : List (String × List Nat))
    (jobs : List (String × JobRec)) (ident : String) : Option (List Nat) :=
  match outputs.lookup ident with
  | some bytes => some bytes
  | none =>
    match jobs.lookup ident with
    | some rec =>
      match rec.output_id with
      | some oid => outputs.lookup oid
      | none => none
    | none => none

/-! ## Concrete fixtures used by closed theorems -/

/-- A snapshot of a finished job, as `GET /jobs/{job_id}` returns it. -/
def finishedSnap : JobStatus :=
  { status := "finished", created_at := some "2026-01-01T00:00:00",
    ended_at := some "2026-01-01T00:05:00", output_id := some "out-1" }

/-- A snapshot of a failed job. -/
def failedSnap : JobStatus :=
  { status := "failed", error := some "bake failed" }

/-- A snapshot of a job still being processed. -/
def startedSnap : JobStatus := { status := "started" }

/-- A React component state with a polling loop in flight. -/
def pollingUi : UiState :=
  { polling := true, loops := 1, rqJobId := some "rq-1", status := "started" }

/-- A one-entry output directory store. -/
def witOutputs : List (String × List Nat) := [("out-1", [7, 8, 9])]

/-- A one-entry Job Record store pointing at `witOutputs`. -/
def witJobs : List (String × JobRec) :=
  [("job-1", { status := "finished", output_id := some "out-1" })]

/-- The object-URL bookkeeping invariant of the React component: the ghost
list of created-but-unrevoked object URLs is exactly the held
`localModelUrl`. -/
def UiInv (s : UiState) : Prop :=
  s.liveUrls = s.localModelUrl.toList

/-- The polling-loop bookkeeping invariant of the React component: a loop
is in flight exactly while `polling` is true. -/
def LoopInv (s : UiState) : Prop :=
  s.loops = (if s.polling then 1 else 0)

/-! ## Helper lemmas -/

theorem truthyOpt_eq_some {x : Option String} {o : String}
    (h : truthyOpt x = some o) : x = some o ∧ o ≠ "" := by
  cases x with
  | none => simp [truthyOpt] at h
  | some s =>
    by_cases hs : s = "" <;> simp [truthyOpt, hs] at h <;> simp_all

theorem truthyOpt_some_of_ne {o : String} (h : o ≠ "") :
    truthyOpt (some o) = some o := by
  simp [truthyOpt, h]

@[simp] theorem clear_localModelUrl (s : UiState) :
    (clearLocalModelPreview s).localModelUrl = none := by
  cases h : s.localModelUrl <;> simp [clearLocalModelPreview, h]

@[simp] theorem clear_polling (s : UiState) :
    (clearLocalModelPreview s).polling = s.polling := by
  cases h : s.localModelUrl <;> simp [clearLocalModelPreview, h]

@[simp] theorem clear_loops (s : UiState) :
    (clearLocalModelPreview s).loops = s.loops := by
  cases h : s.localModelUrl <;> simp [clearLocalModelPreview, h]

@[simp] theorem clear_jobId (s : UiState) :
    (clearLocalModelPreview s).jobId = s.jobId := by
  cases h : s.localModelUrl <;> simp [clearLocalModelPreview, h]

@[simp] theorem clear_rqJobId (s : UiState) :
    (clearLocalModelPreview s).rqJobId = s.rqJobId := by
  cases h : s.localModelUrl <;> simp [clearLocalModelPreview, h]

@[simp] theorem clear_status (s : UiState) :
    (clearLocalModelPreview s).status = s.status := by
  cases h : s.localModelUrl <;> simp [clearLocalModelPreview, h]

theorem clear_liveUrls_of_inv {s : UiState} (h : UiInv s) :
    (clearLocalModelPreview s).liveUrls = [] := by
  cases hu : s.localModelUrl with
  | none =>
    simp [clearLocalModelPreview, hu]
    simpa [UiInv, hu] using h
  | some u =>
    have hl : s.liveUrls = [u] := by simpa [UiInv, hu] using h
    simp [clearLocalModelPreview, hu, hl]

theorem uiInv_clear {s : UiState} (h : UiInv s) :
    UiInv (clearLocalModelPreview s) := by
  simp [UiInv, clear_liveUrls_of_inv h]

theorem uiInv_create {s : UiState} (h : UiInv s)
    (hnone : s.localModelUrl = none) : UiInv (createObjectUrl s) := by
  have hl : s.liveUrls = [] := by simpa [UiInv, hnone] using h
  simp [UiInv, createObjectUrl, hl]

theorem uiInv_step {s : UiState} (e : UiEvent) (h : UiInv s) :
    UiInv (stepUi s e) := by
  cases e with
  | selectFile name =>
    have h1 : UiInv (clearLocalModelPreview { s with selectedFile := name }) :=
      uiInv_clear (by simpa [UiInv] using h)
    by_cases hx : isLocalPreviewExt (extOf name) = true
    · simpa [stepUi, hx] using
        uiInv_create h1 (clear_localModelUrl { s with selectedFile := name })
    · simpa [stepUi, hx] using h1
  | selectNone =>
    simpa [stepUi] using
      uiInv_clear (s := { s with selectedFile := "No file selected" })
        (by simpa [UiInv] using h)
  | submit outcome =>
    by_cases hp : s.polling = true
    · simpa [stepUi, hp] using h
    · cases outcome <;> simp_all [stepUi, UiInv]
  | pollOk data =>
    by_cases hp : s.polling = true
    · by_cases ht : isTerminalStatus data.status = true
      · have h1 : UiInv
            { s with status := data.status,
                     queuedAt := jsOrDash data.created_at,
                     endedAt := jsOrDash data.ended_at,
                     error := jsOrEmpty data.error,
                     jobId := match truthyOpt data.output_id with
                              | some o => some o
                              | none => s.jobId,
                     polling := false, loops := s.loops - 1,
                     selectedFile := "No file selected" } := by
          simpa [UiInv] using h
        have h2 := uiInv_clear h1
        simp only [stepUi, hp, ht, if_true]
        simpa [UiInv] using h2
      · simp only [stepUi, hp, if_true, ht, if_false]
        simpa [UiInv] using h
    · simpa [stepUi, hp] using h
  | pollErr msg =>
    by_cases hp : s.polling = true <;> simp_all [stepUi, UiInv]
  | unmount =>
    simpa [stepUi] using uiInv_clear h

theorem uiInv_run {s : UiState} (evs : List UiEvent) (h : UiInv s) :
    UiInv (runUi s evs) := by
  induction evs generalizing s with
  | nil => simpa [runUi] using h
  | cons e rest ih =>
    simpa [runUi, List.foldl_cons] using ih (uiInv_step e h)

theorem loopInv_step {s : UiState} (e : UiEvent) (h : LoopInv s) :
    LoopInv (stepUi s e) := by
  cases e with
  | selectFile name =>
    by_cases hx : isLocalPreviewExt (extOf name) = true <;>
      simp_all [stepUi, LoopInv, createObjectUrl]
  | selectNone => simp_all [stepUi, LoopInv]
  | submit outcome =>
    by_cases hp : s.polling = true
    · simpa [stepUi, hp] using h
    · cases outcome <;> simp_all [stepUi, LoopInv]
  | pollOk data =>
    by_cases hp : s.polling = true
    · by_cases ht : isTerminalStatus data.status = true <;>
        simp_all [stepUi, LoopInv]
    · simpa [stepUi, hp] using h
  | pollErr msg =>
    by_cases hp : s.polling = true <;> simp_all [stepUi, LoopInv]
  | unmount => simp_all [stepUi, LoopInv]

theorem loopInv_run {s : UiState} (evs : List UiEvent) (h : LoopInv s) :
    LoopInv (runUi s evs) := by
  induction evs generalizing s with
  | nil => simpa [runUi] using h
  | cons e rest ih =>
    simpa [runUi, List.foldl_cons] using ih (loopInv_step e h)

theorem reactStartTime_mono (dur : Nat → Nat) {a b : Nat} (h : a ≤ b) :
    reactStartTime dur a ≤ reactStartTime dur b := by
  induction h with
  | refl => exact Nat.le_refl _
  | step h2 ih =>
    refine Nat.le_trans ih ?_
    simp only [reactStartTime]
    omega

theorem isTerminalStatus_false {st : String} (h : isTerminalStatus st = false) :
    st ≠ "finished" ∧ st ≠ "failed" := by
  simp [isTerminalStatus] at h
  exact h

/-! ## Claims -/

/-- C1: the claim says every polling loop schedules no further status poll
after the first observed terminal status or transport error.  In the
vanilla client (`src/unnamed/part_000`), `pollJob` runs the first `update`
before `pollTimer` is assigned: when that very first poll observes a
terminal status, its `clearInterval(pollTimer)` is a no-op and
`setInterval` still starts, so a second poll is executed 2000 ms later
(`vanillaPollJob … = 2` below, against the claimed 1).  When the first
poll throws a transport error, the loop does not terminate at all on that
error: here it goes on to execute three more polls. -/
theorem c1_first_poll_terminal_still_polls :
    isTerminalStatus HiLoForge.finishedSnap.status = true ∧
    (vanillaPollJob "job-1" {} [.ok finishedSnap, .ok finishedSnap, .ok finishedSnap]).2 = 2 ∧
    (vanillaPollJob "job-1" {} [.err "boom", .ok startedSnap, .ok startedSnap, .ok startedSnap]).2 = 4 := by
  refine ⟨by decide, by decide, by decide⟩

/-- C2 counterexample: in the vanilla client, `setInterval(update, 2000)`
starts the next status poll regardless of whether the previous one has
completed.  With every status request taking 3000 ms (and statuses staying
non-terminal), at time 2000 ms the first two polls are both in flight:
two outstanding polls overlap, refuting the claim as stated. -/
theorem c2_vanilla_overlap_counterexample :
    vanillaInFlightAt (fun _ => 3000) 2 2000 = 2 := by
  decide

/-- C2 (amended): in the React client poller, a new status poll is never
started while a previous one is still in flight — the `k`-th tick's
request completes strictly before any later tick starts, because
`setTimeout(tick, 2000)` is executed only after the previous request
finished. -/
theorem c2_react_polls_never_overlap (dur : Nat → Nat) (k j : Nat)
    (h : k < j) : reactFinishTime dur k < reactStartTime dur j := by
  have h1 : reactFinishTime dur k < reactStartTime dur (k + 1) := by
    simp only [reactFinishTime, reactStartTime]
    omega
  exact Nat.lt_of_lt_of_le h1 (reactStartTime_mono dur h)

/-- C2 witness: the first React poll (500 ms long) completes before the
second one starts. -/
theorem c2_react_polls_never_overlap_witness :
    0 < 1 ∧ reactFinishTime (fun _ => 500) 0 < reactStartTime (fun _ => 500) 1 :=
  ⟨by decide, c2_react_polls_never_overlap (fun _ => 500) 0 1 (by decide)⟩

/-- C3 counterexample: the claim says the download/compare affordances are
revealed once a terminal state (`finished` **or `failed`**) is reached.
On `failed` both clients keep them hidden: the React `downloadUrl` memo is
null (so the status panel shows `Not ready` and no compare link), and the
vanilla `update` calls `setDownload(null)`. -/
theorem c3_failed_keeps_affordances_hidden :
    downloadUrl "" (some "rq-1") "failed" = none ∧
    downloadAffordanceShown "" (some "rq-1") "failed" = false ∧
    (vanillaUpdate "job-1" {} (.ok failedSnap)).1.downloadHref = none := by
  refine ⟨by decide, by decide, by decide⟩

/-- C3 (amended): the download/compare affordances are revealed exactly on
the terminal status `finished` (given a truthy job id); before any
terminal status, and on `failed`, they stay hidden/disabled.  React: the
`downloadUrl` memo is non-null iff `rqJobId` is truthy and the status is
`finished`.  Vanilla: a non-terminal snapshot leaves the download link
untouched, a `finished` snapshot enables it, a `failed` snapshot disables
it. -/
theorem c3_affordances_revealed_iff_finished :
    (∀ base rqJobId status,
        (downloadUrl base rqJobId status).isSome =
          ((truthyOpt rqJobId).isSome && decide (status = "finished"))) ∧
    (∀ jobId s d, isTerminalStatus d.status = false →
        (vanillaUpdate jobId s (.ok d)).1.downloadHref = s.downloadHref) ∧
    (∀ jobId s d, d.status = "finished" →
        (vanillaUpdate jobId s (.ok d)).1.downloadHref =
          some ("/jobs/" ++ jobId ++ "/download")) ∧
    (∀ jobId s d, d.status = "failed" →
        (vanillaUpdate jobId s (.ok d)).1.downloadHref = none) := by
  refine ⟨?_, ?_, ?_, ?_⟩
  · intro base rq st
    cases rq with
    | none => simp [downloadUrl, truthyOpt]
    | some v =>
      by_cases hv : v = "" <;> by_cases hst : st = "finished" <;>
        simp [downloadUrl, truthyOpt, hv, hst]
  · intro jobId s d h
    have h2 := isTerminalStatus_false h
    simp [vanillaUpdate, h2.1, h2.2]
  · intro jobId s d h
    simp [vanillaUpdate, h]
  · intro jobId s d h
    have hne : d.status ≠ "finished" := by simp [h]
    simp [vanillaUpdate, h, hne]

/-- C3 witness: a concrete non-terminal snapshot (`started`) leaves the
vanilla download link at its prior value, and the React affordance is
revealed at status `finished` with a truthy job id. -/
theorem c3_affordances_witness :
    isTerminalStatus "started" = false ∧
    (vanillaUpdate "job-1" {} (.ok startedSnap)).1.downloadHref = none ∧
    (downloadUrl "" (some "rq-1") "finished").isSome =
      ((truthyOpt (some "rq-1")).isSome && decide ("finished" = "finished")) :=
  ⟨by decide,
   by simpa using
     c3_affordances_revealed_iff_finished.2.1 "job-1" {} startedSnap (by decide),
   c3_affordances_revealed_iff_finished.1 "" (some "rq-1") "finished"⟩

/-- C4: `model` retrieval resolution (modelled from the spec, `api/` not
under `src/`).  A direct output-directory hit wins and is never second-
guessed; an identifier that misses the directory is resolved as a
`job_id` via the Job Record and followed to its `output_id`, so for a job
whose `job_id` misses the directory and whose output exists, both
identifiers return byte-identical content. -/
theorem c4_model_dual_resolution :
    (∀ outputs jobs ident bytes, outputs.lookup ident = some bytes →
        resolveModel outputs jobs ident = some bytes) ∧
    (∀ outputs jobs jid rec oid bytes,
        jobs.lookup jid = some rec → rec.output_id = some oid →
        outputs.lookup jid = none → outputs.lookup oid = some bytes →
        resolveModel outputs jobs jid = some bytes ∧
        resolveModel outputs jobs oid = some bytes) := by
  constructor
  · intro outputs jobs ident bytes h
    simp [resolveModel, h]
  · intro outputs jobs jid rec oid bytes h1 h2 h3 h4
    constructor <;> simp [resolveModel, h1, h2, h3, h4]

/-- C4 witness: in a store with one finished job and its output, both the
`job_id` and the `output_id` resolve to the same model bytes. -/
theorem c4_model_dual_resolution_witness :
    resolveModel witOutputs witJobs "job-1" = some [7, 8, 9] ∧
    resolveModel witOutputs witJobs "out-1" = some [7, 8, 9] :=
  ⟨(c4_model_dual_resolution.2 witOutputs witJobs "job-1"
      { status := "finished", output_id := some "out-1" } "out-1" [7, 8, 9]
      (by decide) rfl (by decide) (by decide)).1,
   c4_model_dual_resolution.1 witOutputs witJobs "out-1" [7, 8, 9] (by decide)⟩

/-- C5: both pollers poll at a fixed 2000 ms interval with no backoff: in
the vanilla client consecutive `setInterval` firings are always 2000 ms
apart, and in the React client every `setTimeout(tick, 2000)` schedules
the next poll exactly 2000 ms after the previous one completed — the
scheduled delay is the same for the entire life of the loop. -/
theorem c5_fixed_2000ms_interval :
    (∀ k, vanillaStartTime (k + 1) - vanillaStartTime k = 2000) ∧
    (∀ dur k, reactStartTime dur (k + 1) - reactFinishTime dur k = 2000) := by
  constructor
  · intro k
    simp only [vanillaStartTime]
    omega
  · intro dur k
    simp only [reactStartTime, reactFinishTime]
    omega

/-- C6 counterexample: the claim says locally held preview buffers are
released on both exit paths.  On the transport-error exit they are not:
after selecting `a.glb` (object URL 0 created), submitting, and the poll
throwing, the loop has stopped (`polling = false`, status `error`) but
object URL 0 is still held and unrevoked. -/
theorem c6_error_exit_keeps_preview_url :
    (runUi initUi
      [.selectFile "a.glb",
       .submit (.postOk "job-1" (some "out-1") (some "queued")),
       .pollErr "network down"]).localModelUrl = some 0 ∧
    (runUi initUi
      [.selectFile "a.glb",
       .submit (.postOk "job-1" (some "out-1") (some "queued")),
       .pollErr "network down"]).liveUrls = [0] ∧
    (runUi initUi
      [.selectFile "a.glb",
       .submit (.postOk "job-1" (some "out-1") (some "queued")),
       .pollErr "network down"]).polling = false ∧
    (runUi initUi
      [.selectFile "a.glb",
       .submit (.postOk "job-1" (some "out-1") (some "queued")),
       .pollErr "network down"]).status = "error" := by
  refine ⟨by decide, by decide, by decide, by decide⟩

/-- C6 (amended): the React polling loop has an explicit terminal-state
stop condition on both exit paths, but releases the locally held preview
object URL only on the success exit: observing `finished`/`failed` stops
the loop and revokes the held URL, while a transport error stops the loop
and leaves the URL held (it is released only by a later file selection,
preview clear, or unmount). -/
theorem c6_cleanup_on_success_exit_only :
    (∀ s d, s.polling = true → isTerminalStatus d.status = true →
        UiInv s →
        (stepUi s (.pollOk d)).liveUrls = [] ∧
        (stepUi s (.pollOk d)).localModelUrl = none ∧
        (stepUi s (.pollOk d)).polling = false) ∧
    (∀ s m, s.polling = true →
        (stepUi s (.pollErr m)).polling = false ∧
        (stepUi s (.pollErr m)).localModelUrl = s.localModelUrl ∧
        (stepUi s (.pollErr m)).liveUrls = s.liveUrls) := by
  constructor
  · intro s d hp ht hinv
    have h1 : UiInv
        { s with status := d.status,
                 queuedAt := jsOrDash d.created_at,
                 endedAt := jsOrDash d.ended_at,
                 error := jsOrEmpty d.error,
                 jobId := match truthyOpt d.output_id with
                          | some o => some o
                          | none => s.jobId,
                 polling := false, loops := s.loops - 1,
                 selectedFile := "No file selected" } := by
      simpa [UiInv] using hinv
    simp only [stepUi, hp, ht, if_true]
    refine ⟨?_, ?_, ?_⟩
    · simpa using clear_liveUrls_of_inv h1
    · simp
    · simp
  · intro s m hp
    simp [stepUi, hp]

/-- C6 witness: a concrete polling state holding object URL 5 — a
`finished` snapshot revokes it and stops the loop; a transport error stops
the loop but leaves URL 5 held. -/
theorem c6_cleanup_witness :
    (stepUi { pollingUi with localModelUrl := some 5, liveUrls := [5] }
        (.pollOk finishedSnap)).liveUrls = [] ∧
    (stepUi { pollingUi with localModelUrl := some 5, liveUrls := [5] }
        (.pollErr "boom")).liveUrls = [5] :=
  ⟨(c6_cleanup_on_success_exit_only.1
      { pollingUi with localModelUrl := some 5, liveUrls := [5] }
      finishedSnap (by decide) (by decide) (by simp [UiInv, pollingUi])).1,
   by simpa using
     (c6_cleanup_on_success_exit_only.2
       { pollingUi with localModelUrl := some 5, liveUrls := [5] }
       "boom" (by decide)).2.2⟩

/-- C7 counterexample: the claim says a zero-size upload never results in
a POST to the Submission Service.  The vanilla client's guard only checks
that a file is selected (`fileInput.files.length`), not its size, so a
selected zero-size file IS posted (the React guard rejects it). -/
theorem c7_vanilla_posts_zero_size_file :
    vanillaSubmitSendsPost 1 0 = true ∧
    reactSubmitSendsPost (some 0) = false := by
  refine ⟨by decide, by decide⟩

/-- C7 (amended): an absent upload is rejected client-side by both clients
with an error message and no POST; a zero-size upload is rejected
client-side by the React client only — the vanilla client posts it, and it
is then rejected by the Submission Service (modelled from the spec), which
accepts no zero-size upload, so still no job is created. -/
theorem c7_empty_upload_rejection :
    (∀ file, reactSubmitSendsPost file = true →
        ∃ size, file = some size ∧ size ≠ 0) ∧
    reactSubmitSendsPost none = false ∧
    reactSubmitSendsPost (some 0) = false ∧
    (∀ size, vanillaSubmitSendsPost 0 size = false) ∧
    (∀ ext, submissionAccepts ext 0 = false) := by
  refine ⟨?_, by decide, by decide, ?_, ?_⟩
  · intro file h
    cases file with
    | none => simp [reactSubmitSendsPost] at h
    | some size =>
      refine ⟨size, rfl, ?_⟩
      simpa [reactSubmitSendsPost] using h
  · intro size
    simp [vanillaSubmitSendsPost]
  · intro ext
    simp [submissionAccepts]

/-- C7 witness: a 3-byte upload passes the React guard, hence has a
non-zero size. -/
theorem c7_empty_upload_rejection_witness :
    reactSubmitSendsPost (some 3) = true ∧
    ∃ size, (some 3 : Option Nat) = some size ∧ size ≠ 0 :=
  ⟨by decide, c7_empty_upload_rejection.1 (some 3) (by decide)⟩

/-- C8: after a status poll whose snapshot carries a truthy `output_id`,
the React client stores that `output_id` in the `jobId` state, so the
model, preview (before/after), compare-model and compare-link URLs all
place the `output_id` in the `{job_id}` position of their paths — preview
retrieval included — while `rqJobId`, from which the download URL is
built, is untouched by the tick and keeps the original RQ job id. -/
theorem c8_output_id_addressing (base : String) (s : UiState)
    (d : JobStatus) (o : String) (hp : s.polling = true)
    (ht : truthyOpt d.output_id = some o) :
    (stepUi s (.pollOk d)).jobId = some o ∧
    (stepUi s (.pollOk d)).rqJobId = s.rqJobId ∧
    modelUrl base (stepUi s (.pollOk d)).jobId =
      some (base ++ "/jobs/" ++ o ++ "/model") ∧
    compareBeforeUrl base none none (stepUi s (.pollOk d)).jobId =
      some (base ++ "/jobs/" ++ o ++ "/preview/before") ∧
    compareAfterUrl base none none (stepUi s (.pollOk d)).jobId =
      some (base ++ "/jobs/" ++ o ++ "/preview/after") ∧
    compareModelUrl base none none (stepUi s (.pollOk d)).jobId =
      some (base ++ "/jobs/" ++ o ++ "/model") ∧
    compareLinkHref (stepUi s (.pollOk d)).jobId = "#/compare?job=" ++ o ∧
    downloadUrl base (stepUi s (.pollOk d)).rqJobId (stepUi s (.pollOk d)).status =
      downloadUrl base s.rqJobId (stepUi s (.pollOk d)).status := by
  have hne : o ≠ "" := (truthyOpt_eq_some ht).2
  have hids : (stepUi s (.pollOk d)).jobId = some o ∧
      (stepUi s (.pollOk d)).rqJobId = s.rqJobId := by
    by_cases hterm : isTerminalStatus d.status = true
    · simp [stepUi, hp, hterm, ht]
    · simp [stepUi, hp, hterm, ht]
  refine ⟨hids.1, hids.2, ?_, ?_, ?_, ?_, ?_, ?_⟩
  · rw [hids.1]
    simp [modelUrl, truthyOpt_some_of_ne hne]
  · rw [hids.1]
    simp [compareBeforeUrl, compareJobIdOf, truthyOpt, hne]
  · rw [hids.1]
    simp [compareAfterUrl, compareJobIdOf, truthyOpt, hne]
  · rw [hids.1]
    simp [compareModelUrl, compareJobIdOf, truthyOpt, hne]
  · rw [hids.1]
    simp [compareLinkHref]
  · rw [hids.2]

/-- C8 witness: a `finished` snapshot carrying `output_id` `out-1`
rewrites the model/preview URLs to the output id while `rqJobId` stays
`rq-1`. -/
theorem c8_output_id_addressing_witness :
    (stepUi pollingUi (.pollOk finishedSnap)).jobId = some "out-1" ∧
    (stepUi pollingUi (.pollOk finishedSnap)).rqJobId = some "rq-1" ∧
    modelUrl "" (stepUi pollingUi (.pollOk finishedSnap)).jobId =
      some ("" ++ "/jobs/" ++ "out-1" ++ "/model") ∧
    compareBeforeUrl "" none none (stepUi pollingUi (.pollOk finishedSnap)).jobId =
      some ("" ++ "/jobs/" ++ "out-1" ++ "/preview/before") := by
  have h := c8_output_id_addressing "" pollingUi finishedSnap "out-1"
    (by decide) (by decide)
  exact ⟨h.1, h.2.1, h.2.2.1, h.2.2.2.1⟩

/-- C9: the React client holds at most one live local preview object URL
at any time: over every event sequence (file selections, submissions,
polls, unmount) the set of created-but-unrevoked object URLs is exactly
the held `localModelUrl`, hence never more than one — the previous URL is
always revoked before a new one exists. -/
theorem c9_at_most_one_live_preview_url (evs : List UiEvent) :
    (runUi initUi evs).liveUrls = (runUi initUi evs).localModelUrl.toList ∧
    (runUi initUi evs).liveUrls.length ≤ 1 := by
  have h : UiInv (runUi initUi evs) := uiInv_run evs (by simp [UiInv, initUi])
  have he : (runUi initUi evs).liveUrls =
      (runUi initUi evs).localModelUrl.toList := h
  refine ⟨he, ?_⟩
  rw [he]
  cases (runUi initUi evs).localModelUrl <;> simp

/-- C10: at most one submission/polling loop is in flight at a time in the
React client: the ghost loop counter never exceeds one over any event
sequence; a submit event is a complete no-op while `polling` is true (the
submit button is `disabled={polling}`); and `polling` is false after every
exit of the loop — a terminal-status poll, a transport-error poll — and
after a failed submission. -/
theorem c10_single_polling_loop :
    (∀ evs, (runUi initUi evs).loops ≤ 1) ∧
    (∀ s o, s.polling = true → stepUi s (.submit o) = s) ∧
    (∀ s d, isTerminalStatus d.status = true →
        (stepUi s (.pollOk d)).polling = false) ∧
    (∀ s m, (stepUi s (.pollErr m)).polling = false) ∧
    (∀ s m, s.polling = false →
        (stepUi s (.submit (.postFailed m))).polling = false) := by
  refine ⟨?_, ?_, ?_, ?_, ?_⟩
  · intro evs
    have h : LoopInv (runUi initUi evs) :=
      loopInv_run evs (by simp [LoopInv, initUi])
    have he : (runUi initUi evs).loops =
        (if (runUi initUi evs).polling then 1 else 0) := h
    rw [he]
    split <;> omega
  · intro s o hp
    simp [stepUi, hp]
  · intro s d ht
    cases hp : s.polling with
    | true => simp [stepUi, hp, ht]
    | false => simp [stepUi, hp]
  · intro s m
    cases hp : s.polling with
    | true => simp [stepUi, hp]
    | false => simp [stepUi, hp]
  · intro s m hp
    simp [stepUi, hp]

/-- C10 witness: with a loop in flight, submitting is a no-op and a
`failed` poll stops the loop; from the idle state, a failed POST leaves
`polling` false. -/
theorem c10_single_polling_loop_witness :
    stepUi pollingUi (.submit .clientRejected) = pollingUi ∧
    (stepUi pollingUi (.pollOk failedSnap)).polling = false ∧
    (stepUi initUi (.submit (.postFailed "Upload failed."))).polling = false :=
  ⟨c10_single_polling_loop.2.1 pollingUi .clientRejected (by decide),
   c10_single_polling_loop.2.2.1 pollingUi failedSnap (by decide),
   c10_single_polling_loop.2.2.2.2 initUi "Upload failed." (by decide)⟩

end HiLoForge
